import Mathlib

/-! Verification development for the `finDataAnalysisAgent` repository.

The Python sources are shallowly embedded: Python strings are modelled as
`List Char`, Python (insertion-ordered) dicts as association lists, and
effectful collaborators (the LLM HTTP service, tool execution, the sandbox
child process, the wall clock) as explicit oracle parameters.  Every
definition carries a note naming the source function it embeds.
-/

namespace FinAgent

/-- Python strings, modelled as lists of characters. -/
abbrev PyStr := List Char

/-- Character list of a Lean string literal (used to spell Python string
literals). -/
def toL (s : String) : PyStr := s.toList

/-- Whitespace test used by Python `str.strip()` (the embedding covers the
ASCII whitespace characters, which are the only ones the repository's
strings contain). -/
def isWS (c : Char) : Bool := c.isWhitespace

/-- Boolean list-prefix test (`l₁` is a prefix of `l₂`). -/
def chsPrefixOf : PyStr → PyStr → Bool
  | [], _ => true
  | _ :: _, [] => false
  | a :: t, b :: s => a == b && chsPrefixOf t s

/-- Python's substring containment `t in s`. -/
def pyIn : PyStr → PyStr → Bool
  | t, [] => t.isEmpty
  | t, c :: s => chsPrefixOf t (c :: s) || pyIn t s

/-- Python `str.strip()`: drop leading and trailing whitespace. -/
def pyStrip (s : PyStr) : PyStr :=
  ((s.dropWhile isWS).reverse.dropWhile isWS).reverse

/-- Python `str.lower()` (ASCII case mapping; the repository lowers strings
that are ASCII-or-Chinese, on which this agrees with Python). -/
def pyLower (s : PyStr) : PyStr := s.map Char.toLower

/-- Python `str.upper()` (ASCII case mapping, same caveat as `pyLower`). -/
def pyUpper (s : PyStr) : PyStr := s.map Char.toUpper

/-- Association-list lookup, modelling Python `dict.get(k)` on an
insertion-ordered dict. -/
def dictGet {α : Type} : List (PyStr × α) → PyStr → Option α
  | [], _ => none
  | (k, v) :: d, key => if k = key then some v else dictGet d key

/-- Modelling Python `d[k] = v` on an insertion-ordered dict: replace the
value in place when the key exists, else append. -/
def dictSet {α : Type} : List (PyStr × α) → PyStr → α → List (PyStr × α)
  | [], key, v => [(key, v)]
  | (k, w) :: d, key, v =>
    if k = key then (k, v) :: d else (k, w) :: dictSet d key v

/-- Python `dict.update(pairs)`: set each pair in order. -/
def dictUpdate {α : Type} (d : List (PyStr × α)) (ps : List (PyStr × α)) :
    List (PyStr × α) :=
  ps.foldl (fun acc kv => dictSet acc kv.1 kv.2) d

/-! Section: `agent/dialogue/memory_store.py` (`MemoryStore`) -/

/-- One long-term memory item: the dict built by
`MemoryStore.add_long_term_memory` (all values arising in the claims are
strings). -/
abbrev LongItem := List (PyStr × PyStr)

/-- Embeds `MemoryStore.add_long_term_memory`: appends
`{"scene": scene, "result": result, "export_path": path,
"create_time": now, **kwargs}`.  The wall-clock timestamp is passed in as
`create_time`. -/
def add_long_term_memory (mem : List LongItem) (scene result export_path
    create_time : PyStr) (kwargs : List (PyStr × PyStr)) : List LongItem :=
  mem ++ [[(toL "scene", scene), (toL "result", result),
           (toL "export_path", export_path),
           (toL "create_time", create_time)] ++ kwargs]

/-- Python's `lst[-n:]` slice for `0 ≤ n ≤ len(lst)`: for `n = 0` the index
`-0` is `0`, so the slice is the whole list; for `n ≥ 1` it is the last `n`
elements. -/
def pySliceTail {α : Type} (n : Nat) (l : List α) : List α :=
  if n = 0 then l else l.drop (l.length - n)

/-- Embeds `MemoryStore.clear_expired_long_term_memory`: when the list is longer
than `keep_latest_n`, replace it by `lst[-keep_latest_n:]`. -/
def clear_expired_long_term_memory {α : Type} (keep_latest_n : Nat)
    (mem : List α) : List α :=
  if keep_latest_n < mem.length then pySliceTail keep_latest_n mem else mem

/-- Result of `MemoryStore.get_long_term_memory`: the Python function
returns either a list of items or a single item dict. -/
inductive LTResult where
  | list (l : List LongItem)
  | dict (d : LongItem)
deriving DecidableEq

/-- Embeds `MemoryStore.get_long_term_memory(scene, latest_only)`: with no scene it
returns (a copy of) the whole list — note `latest_only` is ignored on that
path; with a scene it filters by scene and returns the last matching item
(dict) or all of them (list), with `{}`/`[]` when nothing matches. -/
def get_long_term_memory (mem : List LongItem) (scene : Option PyStr)
    (latest_only : Bool) : LTResult :=
  match scene with
  | none => .list mem
  | some sc =>
    let scene_memory := mem.filter (fun item => dictGet item (toL "scene") = some sc)
    match scene_memory.getLast? with
    | none => if latest_only then .dict [] else .list []
    | some last => if latest_only then .dict last else .list scene_memory

/-- Python truthiness of a `get_long_term_memory` result (non-empty list /
non-empty dict). -/
def ltTruthy : LTResult → Bool
  | .list l => !l.isEmpty
  | .dict d => !d.isEmpty

/-- Python `x in r` where `r` is a `get_long_term_memory` result: on a list
it tests element equality (a string never equals an item dict, so it is
`false` on every element); on a dict it tests key membership. -/
def ltContains (key : PyStr) : LTResult → Bool
  | .list l => l.any (fun _ => false)
  | .dict d => d.any (fun kv => kv.1 = key)

/-- Python `r[key]` on a `get_long_term_memory` result; the list case would
raise a `TypeError` in Python and is only reached in the source under a
guard that rules it out, so it is mapped to `none`. -/
def ltGetItem (r : LTResult) (key : PyStr) : Option PyStr :=
  match r with
  | .list _ => none
  | .dict d => dictGet d key

/-! Section: `agent/dialogue/context_manager.py` (`ContextManager`) -/

/-- Short-term memory: the key→value dict held by `MemoryStore`
(string-valued in every use the claims touch). -/
abbrev ShortMem := List (PyStr × PyStr)

/-- Python truthiness of an optional string (`None` and `""` are falsy). -/
def optTruthy : Option PyStr → Bool
  | none => false
  | some s => !s.isEmpty

/-- Embeds `ContextManager._complement_context_from_long_term`: reads the current
input from short-term memory, fetches `get_long_term_memory(latest_only=True)`
(which, with no scene argument, returns the whole *list*), and copies
`scene` / `time_range` from it into short-term memory when the membership
guards pass. -/
def complement_context_from_long_term (mem : List LongItem)
    (short : ShortMem) : ShortMem :=
  match dictGet short (toL "current_user_input") with
  | none => short
  | some current_input =>
    if current_input.isEmpty then short
    else
      let latest_long_term := get_long_term_memory mem none true
      let short1 :=
        if ltTruthy latest_long_term && ltContains (toL "scene") latest_long_term then
          if !pyIn (toL "scene") (pyLower current_input)
              && !optTruthy (dictGet short (toL "scene")) then
            dictSet short (toL "scene")
              ((ltGetItem latest_long_term (toL "scene")).getD [])
          else short
        else short
      if ltTruthy latest_long_term && ltContains (toL "time_range") latest_long_term then
        if !pyIn (toL "time") (pyLower current_input)
            && !optTruthy (dictGet short1 (toL "time_range")) then
          dictSet short1 (toL "time_range")
            ((ltGetItem latest_long_term (toL "time_range")).getD [])
        else short1
      else short1

/-- Embeds `ContextManager.update_context`: optionally clear short-term memory
(`clear_prev_short`, defaulted to true in the source and passed explicitly
here), store the stripped input under `"current_user_input"`, then
complement from long-term memory.  Returns the new short-term memory. -/
def update_context (mem : List LongItem) (short : ShortMem)
    (user_input : PyStr) (clear_prev_short : Bool) : ShortMem :=
  let short0 := if clear_prev_short then [] else short
  let short1 := dictSet short0 (toL "current_user_input") (pyStrip user_input)
  complement_context_from_long_term mem short1

/-- The four core context fields of `ContextManager`. -/
def core_context_fields : List PyStr :=
  [toL "scene", toL "time_range", toL "data_type", toL "operation"]

/-- Embeds `ContextManager.extract_key_context`: each core field from short-term
memory with default `"未提及"`, plus the current user input. -/
def extract_key_context (short : ShortMem) : List (PyStr × PyStr) :=
  (core_context_fields.map
    (fun f => (f, (dictGet short f).getD (toL "未提及"))))
  ++ [(toL "current_user_input",
      (dictGet short (toL "current_user_input")).getD (toL "未提及"))]

/-! Section: `agent/parser/nl_parser.py` (`NLParser`)

The four time patterns are `\d{4}年\d{1,2}月`, `\d{4}-\d{1,2}`,
`\d{4}年Q\d`, `\d{4}年`, tried in that order with `re.search` (leftmost
match; `\d{1,2}` greedy with backtracking).  `\d` is modelled as an ASCII
digit. -/

/-- Anchored match of `\d{4}年\d{1,2}月` at the head of the list, returning
the matched text. -/
def matchP1At : PyStr → Option PyStr
  | a :: b :: c :: d :: y :: rest =>
    if a.isDigit && b.isDigit && c.isDigit && d.isDigit && y == '年' then
      match rest with
      | e :: f :: g :: _ =>
        if e.isDigit && f.isDigit && g == '月' then some [a, b, c, d, y, e, f, g]
        else if e.isDigit && f == '月' then some [a, b, c, d, y, e, f]
        else none
      | [e, f] =>
        if e.isDigit && f == '月' then some [a, b, c, d, y, e, f] else none
      | _ => none
    else none
  | _ => none

/-- Anchored match of `\d{4}-\d{1,2}` at the head of the list. -/
def matchP2At : PyStr → Option PyStr
  | a :: b :: c :: d :: h :: rest =>
    if a.isDigit && b.isDigit && c.isDigit && d.isDigit && h == '-' then
      match rest with
      | e :: f :: _ =>
        if e.isDigit && f.isDigit then some [a, b, c, d, h, e, f]
        else if e.isDigit then some [a, b, c, d, h, e]
        else none
      | [e] => if e.isDigit then some [a, b, c, d, h, e] else none
      | [] => none
    else none
  | _ => none

/-- Anchored match of `\d{4}年Q\d` at the head of the list. -/
def matchP3At : PyStr → Option PyStr
  | a :: b :: c :: d :: y :: q :: e :: _ =>
    if a.isDigit && b.isDigit && c.isDigit && d.isDigit && y == '年'
        && q == 'Q' && e.isDigit then
      some [a, b, c, d, y, q, e]
    else none
  | _ => none

/-- Anchored match of `\d{4}年` at the head of the list. -/
def matchP4At : PyStr → Option PyStr
  | a :: b :: c :: d :: y :: _ =>
    if a.isDigit && b.isDigit && c.isDigit && d.isDigit && y == '年' then
      some [a, b, c, d, y]
    else none
  | _ => none

/-- Embeds `re.search`: try the anchored matcher at each start position from the
left, first success wins. -/
def reSearch {β : Type} (m : PyStr → Option β) : PyStr → Option β
  | [] => m []
  | c :: s =>
    match m (c :: s) with
    | some r => some r
    | none => reSearch m s

/-- Embeds `NLParser._extract_time_range`: the four patterns tried in declared
order, falling back to `"未指定时间"`. -/
def extract_time_range (user_input : PyStr) : PyStr :=
  match reSearch matchP1At user_input with
  | some r => r
  | none =>
    match reSearch matchP2At user_input with
    | some r => r
    | none =>
      match reSearch matchP3At user_input with
      | some r => r
      | none =>
        match reSearch matchP4At user_input with
        | some r => r
        | none => toL "未指定时间"

/-- The fixed label list of `NLParser._extract_data_type`. -/
def data_types : List PyStr :=
  [toL "销售数据", toL "成本数据", toL "利润数据", toL "全量数据"]

/-- Embeds `NLParser._extract_data_type`: returns the first label `dt` such that
`dt in user_input or any(word in user_input for word in dt)` — note that
`for word in dt` iterates over the *characters* of the label, so a single
shared character suffices; falls back to `"未指定数据类型"`. -/
def extract_data_type (user_input : PyStr) : PyStr :=
  match data_types.find?
      (fun dt => pyIn dt user_input || dt.any (fun w => pyIn [w] user_input)) with
  | some dt => dt
  | none => toL "未指定数据类型"

/-! Section: `agent/parser/scenario_matcher.py` (`ScenarioMatcher`) -/

/-- Heterogeneous parameter values stored in a `Task`'s `params` dict. -/
inductive PVal where
  | s (v : PyStr)
  | i (v : Int)
  | ls (v : List PyStr)
  | sm (v : List (PyStr × PyStr))
deriving DecidableEq

/-- The `Task` dataclass of `agent/parser/task_structor.py` (the fields the
scenario matcher copies into the new instance). -/
structure Task where
  task_id : PyStr
  task_type : PyStr
  scene : PyStr
  mcp_config : List (PyStr × PyStr)
  params : List (PyStr × PVal)
  priority : Nat
  create_time : PyStr
  status : PyStr
deriving DecidableEq

/-- One value of the scene→wide-table mapping. -/
structure SceneInfo where
  wide_table : PyStr
  process_rules : List PyStr
  field_mapping : List (PyStr × PyStr)
deriving DecidableEq

/-- The built-in `ScenarioMatcher._scene_mapping` table (literal content
from the source). -/
def scene_mapping : List (PyStr × SceneInfo) :=
  [(toL "销售分析",
    { wide_table := toL "sales_wide_table"
      process_rules :=
        [toL "按产品分类/区域分类进行聚合统计",
         toL "计算月度/季度环比/同比增长率",
         toL "生成销售额Top10排行榜",
         toL "保存销售趋势图为sales_trend.png"]
      field_mapping :=
        [(toL "销售额", toL "sales_amount"),
         (toL "产品分类", toL "product_category"),
         (toL "销售区域", toL "sales_region"),
         (toL "销售时间", toL "sales_date")] }),
   (toL "成本分析",
    { wide_table := toL "cost_wide_table"
      process_rules :=
        [toL "按成本类型进行汇总统计",
         toL "检测成本异常值（IQR法）",
         toL "计算成本占销售额的比例",
         toL "保存成本分布直方图为cost_distribution.png"]
      field_mapping :=
        [(toL "成本金额", toL "cost_amount"),
         (toL "成本类型", toL "cost_type"),
         (toL "结算时间", toL "settle_date"),
         (toL "部门", toL "department")] }),
   (toL "利润分析",
    { wide_table := toL "profit_wide_table"
      process_rules :=
        [toL "计算毛利（销售额-成本）和净利率",
         toL "按季度聚合利润数据",
         toL "分析利润与销售额的相关性",
         toL "保存利润趋势图为profit_trend.png"]
      field_mapping :=
        [(toL "毛利", toL "gross_profit"),
         (toL "净利", toL "net_profit"),
         (toL "利润日期", toL "profit_date"),
         (toL "产品线", toL "product_line")] }),
   (toL "异常检测",
    { wide_table := toL "business_anomaly_table"
      process_rules :=
        [toL "使用IQR法/3σ法检测数值列异常值",
         toL "标注异常数据的原因（超出上下限/突变）",
         toL "汇总异常数据并生成预警报表",
         toL "保存异常数据清单为anomaly_list.xlsx"]
      field_mapping :=
        [(toL "业务数据", toL "business_data"),
         (toL "数据类型", toL "data_type"),
         (toL "检测时间", toL "detect_date"),
         (toL "异常等级", toL "anomaly_level")] })]

/-- Python `repr` of a list of strings, as interpolated into the
no-matching-scene error message. -/
def pyReprStrList (l : List PyStr) : PyStr :=
  toL "[" ++ List.intercalate (toL ", ")
    (l.map (fun s => '\x27' :: (s ++ ['\x27']))) ++ toL "]"

/-- Python `dict.copy()` (the embedding is pure, so the copy is the dict
itself; the point in the source is that the subsequent `update` acts on the
copy, not on `task.params`). -/
def dictCopy {α : Type} (d : List (PyStr × α)) : List (PyStr × α) := d

/-- Embeds `ScenarioMatcher.match_scene_to_table`.  The result's first component is
the state of the *argument* task after the call (unchanged, because the
source updates a copy of `task.params`); the second component is the
returned, newly constructed task. -/
def match_scene_to_table (task : Task) : Except PyStr (Task × Task) :=
  match dictGet scene_mapping task.scene with
  | none =>
    .error (toL "无匹配的场景映射：" ++ task.scene ++ toL "，支持场景："
      ++ pyReprStrList (scene_mapping.map (·.1)))
  | some scene_info =>
    let updated_params := dictUpdate (dictCopy task.params)
      [(toL "wide_table", .s scene_info.wide_table),
       (toL "process_rules", .ls scene_info.process_rules),
       (toL "field_mapping", .sm scene_info.field_mapping)]
    let updated_task : Task :=
      { task_id := task.task_id, task_type := task.task_type
        scene := task.scene, mcp_config := task.mcp_config
        params := updated_params, priority := task.priority
        create_time := task.create_time, status := task.status }
    .ok (task, updated_task)

/-! Section: `src/mcp/nl2sql/sql_generator.py` (`SQLGenerator`) -/

/-- The keyword list of `SQLGenerator._verify_sql`. -/
def dangerous_sql_keywords : List PyStr :=
  [toL "DROP", toL "DELETE", toL "TRUNCATE", toL "ALTER"]

/-- Embeds `SQLGenerator._verify_sql`: `not any(keyword in sql.upper() ...)`. -/
def verify_sql (sql : PyStr) : Bool :=
  ! dangerous_sql_keywords.any (fun kw => pyIn kw (pyUpper sql))

/-- Embeds `SQLGenerator._generate_sql` (the `query_demand` argument is unused in
the source as well). -/
def generate_sql (query_demand wide_table time_range : PyStr)
    (field_mapping : List (PyStr × PyStr)) (default_time_field : PyStr) :
    PyStr :=
  let _ := query_demand
  let fields :=
    if field_mapping.isEmpty then toL "*"
    else List.intercalate (toL ",") (field_mapping.map (·.2))
  toL "SELECT " ++ fields ++ toL " FROM " ++ wide_table ++ toL " WHERE "
    ++ default_time_field ++ toL " LIKE \x27%" ++ time_range ++ toL "%\x27;"

/-- Embeds `SQLGenerator._execute_sql`: a fixed synthetic 3-row result, regardless
of the statement. -/
def execute_sql (sql : PyStr) :
    List (List (PyStr × PVal)) × Nat × List PyStr :=
  let _ := sql
  let rows : List (List (PyStr × PVal)) :=
    [[(toL "cost_amount", .i 10000), (toL "cost_type", .s (toL "人力成本")),
      (toL "settle_date", .s (toL "2024-02-10"))],
     [(toL "cost_amount", .i 20000), (toL "cost_type", .s (toL "物料成本")),
      (toL "settle_date", .s (toL "2024-02-15"))],
     [(toL "cost_amount", .i 15000), (toL "cost_type", .s (toL "运营成本")),
      (toL "settle_date", .s (toL "2024-02-20"))]]
  (rows, rows.length, [toL "cost_amount", toL "cost_type", toL "settle_date"])

/-- The fields of `task_dict["params"]` that `SQLGenerator.execute` reads
(`None` models a missing key). -/
structure SqlParams where
  query_demand : Option PyStr
  wide_table : Option PyStr
  time_range : Option PyStr
  field_mapping : Option (List (PyStr × PyStr))

/-- A task dict as received by `SQLGenerator.execute` (`None` models a
missing required key, to be filled by `_standardize_input`). -/
structure SqlTaskDict where
  task_id : Option PyStr
  task_type : Option PyStr
  scene : Option PyStr
  params : Option SqlParams
  output_path : Option PyStr

/-- Embeds `BaseMCP._standardize_input` specialised to the fields above: missing
`task_id`/`task_type`/`scene` become `"unknown"`, a missing `params` becomes
the empty dict, a missing `output_path` becomes the configured default. -/
structure StdSqlTask where
  task_id : PyStr
  task_type : PyStr
  scene : PyStr
  params : SqlParams
  output_path : PyStr

/-- See `StdSqlTask`. -/
def standardize_input (default_output_path : PyStr) (t : SqlTaskDict) :
    StdSqlTask :=
  { task_id := t.task_id.getD (toL "unknown")
    task_type := t.task_type.getD (toL "unknown")
    scene := t.scene.getD (toL "unknown")
    params := t.params.getD ⟨none, none, none, none⟩
    output_path := t.output_path.getD default_output_path }

/-- The module-specific success payload of the NL2SQL envelope. -/
structure Nl2SqlData where
  generated_sql : PyStr
  query_result : List (List (PyStr × PVal))
  data_count : Nat
  field_names : List PyStr
  wide_table : PyStr
  time_range : PyStr
deriving DecidableEq

/-- The standardized MCP result envelope (`BaseMCP._standardize_output`),
specialised to the NL2SQL module's payload; `data = none` models the empty
dict `{}`. -/
structure Envelope where
  mcp_module : PyStr
  task_id : PyStr
  status : PyStr
  data : Option Nl2SqlData
  error_msg : PyStr
  execute_time : PyStr
  output_files : List PyStr
deriving DecidableEq

/-- Embeds `BaseMCP._standardize_output` for the `SQLGenerator` module. -/
def standardize_output (status : PyStr) (data : Option Nl2SqlData)
    (error_msg : PyStr) : Envelope :=
  { mcp_module := toL "SQLGenerator", task_id := [], status := status
    data := data, error_msg := error_msg, execute_time := []
    output_files := [] }

/-- Embeds `SQLGenerator.execute`.  `initialized`, the configured
`default_time_field`, the global default output path and the wall-clock
timestamp are passed explicitly.  The second component records whether
`_execute_sql` was reached (instrumentation for the safety claim). -/
def sqlgen_execute (initialized : Bool) (default_time_field
    default_output_path now : PyStr) (task_dict : SqlTaskDict) :
    Envelope × Bool :=
  if !initialized then
    (standardize_output (toL "failed") none (toL "NL2SQL模块未初始化"), false)
  else
    let st := standardize_input default_output_path task_dict
    let task_id := st.task_id
    let query_demand := (st.params.query_demand).getD []
    let wide_table := (st.params.wide_table).getD []
    let time_range := (st.params.time_range).getD []
    let field_mapping := (st.params.field_mapping).getD []
    if query_demand.isEmpty || wide_table.isEmpty then
      ({ standardize_output (toL "failed") none
          (toL "NL2SQL任务 " ++ task_id
            ++ toL " 执行失败：缺少核心查询参数：query_demand/wide_table")
          with task_id := task_id }, false)
    else
      let generated_sql :=
        generate_sql query_demand wide_table time_range field_mapping
          default_time_field
      if !verify_sql generated_sql then
        ({ standardize_output (toL "failed") none
            (toL "NL2SQL任务 " ++ task_id
              ++ toL " 执行失败：生成的SQL不符合合规要求，禁止执行")
            with task_id := task_id }, false)
      else
        let res := execute_sql generated_sql
        ({ standardize_output (toL "success")
            (some { generated_sql := generated_sql, query_result := res.1
                    data_count := res.2.1, field_names := res.2.2
                    wide_table := wide_table, time_range := time_range })
            [] with task_id := task_id, execute_time := now }, true)

/-! Section: `src/mcp/python_sandbox/sandbox_core.py` (`SafePythonSandbox`)

Default configuration: timeout 30 s, max memory 512 MB.  The source stores
the forbidden module/function collections as Python sets, whose iteration
order is unspecified; the embedding fixes the declaration order. -/

/-- Embeds `DEFAULT_PYTHON_SANDBOX_CONFIG["forbidden_modules"]`. -/
def forbidden_modules : List PyStr :=
  [toL "os", toL "subprocess", toL "socket", toL "shutil", toL "ctypes",
   toL "sysconfig", toL "pty"]

/-- Embeds `DEFAULT_PYTHON_SANDBOX_CONFIG["forbidden_functions"]`. -/
def forbidden_functions : List PyStr :=
  [toL "system", toL "popen", toL "spawn", toL "fork", toL "exec",
   toL "eval", toL "execfile"]

/-- The `dangerous_keywords` set of `_check_script_safety`. -/
def dangerous_keywords : List PyStr :=
  [toL "open(", toL "file(", toL "os.remove", toL "os.rmdir",
   toL "shutil.rmtree"]

/-- The four import-statement spellings checked per forbidden module. -/
def import_patterns (mod : PyStr) : List PyStr :=
  [toL "import " ++ mod,
   toL "from " ++ mod ++ toL " import",
   toL "import " ++ mod ++ toL " as",
   toL "from " ++ mod ++ toL " ."]

/-- First forbidden module (with the offending pattern) whose import
spelling occurs in the cleaned script. -/
def findModuleHit (script_clean : PyStr) : Option (PyStr × PyStr) :=
  forbidden_modules.findSome? (fun m =>
    ((import_patterns m).find? (fun pat => pyIn pat script_clean)).map
      (fun pat => (m, pat)))

/-- Python exceptions that escape the modelled code. -/
inductive PyErr where
  | typeError
deriving DecidableEq

deriving instance DecidableEq for Except

/-- Embeds `SafePythonSandbox._check_script_safety`.  The forbidden-function branch
models the source's
`if not any([f"def {func}(", ...]) in script_clean:` —
because `in` binds tighter than `not`, this evaluates
`any([...]) in script_clean`, i.e. `True in <str>`, which raises a
`TypeError` whenever a forbidden function name occurs in the script. -/
def check_script_safety (script : PyStr) : Except PyErr (Bool × PyStr) :=
  if script.isEmpty || (pyStrip script).isEmpty then
    .ok (false, toL "错误：Python脚本内容为空")
  else
    let script_clean := pyStrip script
    match findModuleHit script_clean with
    | some hit =>
      .ok (false, toL "禁止导入危险模块「" ++ hit.1 ++ toL "」，脚本包含："
        ++ hit.2)
    | none =>
      if forbidden_functions.any (fun f => pyIn f script_clean) then
        .error .typeError
      else
        match dangerous_keywords.find? (fun kw => pyIn kw script_clean) with
        | some kw =>
          .ok (false, toL "脚本包含危险操作「" ++ kw ++ toL "」，禁止执行")
        | none => .ok (true, toL "Python脚本安全校验通过")

/-- Python `str.splitlines()` restricted to `'\n'` separators (the only
line separator occurring in the generated template and the scripts the
claims use). -/
def pySplitlines (s : PyStr) : List PyStr :=
  if s.isEmpty then []
  else
    let parts := s.splitOn '\n'
    if s.getLast? = some '\n' then parts.dropLast else parts

/-- The standalone execution program built by
`_generate_standalone_exec_code` before line cleaning: the f-string with the
default configuration values substituted (memory 512 MB, CPU cap
`int(30 * 1.5) = 45` s), `str(list(forbidden_modules))` rendered by
`pyReprStrList`, and the user script spliced into the `exec` call.  Literal
braces of the generated Python text are written as `\x7b`/`\x7d`. -/
def standalone_template (script : PyStr) : PyStr :=
  toL "\n# 沙箱隔离执行代码（自动生成，禁止修改）\nimport sys\nimport os\n\n# ===================== 第一步：禁用危险模块 =====================\nclass ForbiddenModule:\n    def __getattr__(self, attr_name):\n        raise ImportError(\"模块被沙箱禁止使用：\x7battr_name\x7d\")\n\n# 覆盖危险模块，防止导入/使用\nforbidden_modules = "
  ++ pyReprStrList forbidden_modules
  ++ toL "\nfor mod_name in forbidden_modules:\n    if mod_name in sys.modules:\n        sys.modules[mod_name] = ForbiddenModule()\n    sys.modules[mod_name] = ForbiddenModule()\n\n# ===================== 第二步：设置资源限制 =====================\ntry:\n    import resource\n    # 内存限制：512MB\n    max_memory = 512 * 1024 * 1024\n    resource.setrlimit(resource.RLIMIT_AS, (max_memory, max_memory))\n    # CPU时间限制：45秒\n    resource.setrlimit(resource.RLIMIT_CPU, (45, 45))\nexcept ImportError:\n    print(\"[WARN] 资源限制模块不可用（非Linux系统），仅启用超时控制\")\n\n# ===================== 第三步：执行用户脚本 =====================\nprint(\"[INFO] 开始执行数据分析脚本...\")\ntry:\n    # 执行用户脚本（隔离命名空间）\n    exec_globals = \x7b\x7d\n    exec(\"\"\""
  ++ script
  ++ toL "\"\"\", exec_globals)\n    print(\"[INFO] 数据分析脚本执行完成\")\nexcept Exception as e:\n    print(f\"[ERROR] 脚本执行异常：\x7btype(e).__name__\x7d - \x7bstr(e)\x7d\")\n    raise\n"

/-- Embeds `SafePythonSandbox._generate_standalone_exec_code`: split the template
into lines, keep lines with non-blank content, drop leading blank lines,
and join with the two-character text `\n` — the source joins with the
string literal `"\\n"` (a backslash followed by `n`), not a newline. -/
def generate_standalone_exec_code (script : PyStr) : PyStr :=
  let clean_lines :=
    (pySplitlines (standalone_template script)).filter
      (fun l => !(pyStrip l).isEmpty)
  let clean_lines := clean_lines.dropWhile (fun l => (pyStrip l).isEmpty)
  List.intercalate (toL "\\n") clean_lines

/-- Outcome of `run_script_in_sandbox`; `subprocess_started` is
instrumentation recording whether the child-process stage was reached. -/
structure SandboxOutcome where
  ok : Bool
  msg : PyStr
  subprocess_started : Bool
deriving DecidableEq

/-- Embeds `SafePythonSandbox.run_script_in_sandbox`.  The child-process run
(`_run_subprocess`) is abstracted as the oracle `run_subprocess` mapping the
generated execution code to `(success, combined output)`; the temporary
file write/cleanup is file I/O and not modelled.  The `\\n` sequences in the
result strings are literal backslash-`n` texts, exactly as in the source. -/
def run_script_in_sandbox (run_subprocess : PyStr → Bool × PyStr)
    (script : PyStr) : Except PyErr SandboxOutcome :=
  match check_script_safety script with
  | .error e => .error e
  | .ok (is_safe, safety_msg) =>
    if !is_safe then
      .ok ⟨false, toL "安全校验失败：" ++ safety_msg, false⟩
    else
      let exec_code := generate_standalone_exec_code script
      let r := run_subprocess exec_code
      if r.1 then .ok ⟨true, toL "[OK] 脚本执行成功\\n\\n" ++ r.2, true⟩
      else .ok ⟨false, toL "[ERROR] 脚本执行失败\\n\\n" ++ r.2, true⟩

/-! Section: `src/agents/react_agent.py` and `src/agents/task_dispatcher.py`

The LLM service, the tool dispatch (`execute_action`, including the
`json.loads`/`json.dumps` round trip of the action parameters), the
classification LLM call and the summarization LLM call are effectful
collaborators, abstracted as total oracle functions.  The `history=None`
default of `run_react_agent` (seeding with the tool-enumerating system
prompt) is not modelled: every claim supplies an explicit seed history. -/

/-- One conversation history entry. -/
structure Msg where
  role : PyStr
  content : PyStr
deriving DecidableEq

/-- A user-role entry. -/
def userMsg (content : PyStr) : Msg := ⟨toL "user", content⟩

/-- An assistant-role entry. -/
def assistantMsg (content : PyStr) : Msg := ⟨toL "assistant", content⟩

/-- Anchored match of `FINAL_ANSWER_PATTERN = Final Answer:\s*(.+)`
(DOTALL) at the head of the list, returning capture group 1: after the
literal, greedy `\s*` then a non-empty greedy `(.+)`; when only whitespace
follows, backtracking leaves the last whitespace character as the group. -/
def finalAnswerAt (l : PyStr) : Option PyStr :=
  if chsPrefixOf (toL "Final Answer:") l then
    let rest := l.drop 13
    if rest.isEmpty then none
    else
      let w := rest.dropWhile isWS
      if w.isEmpty then rest.getLast?.map (fun c => [c]) else some w
  else none

/-- Embeds `\w` of `ACTION_PATTERN` (ASCII word characters; the registered tool
names are ASCII). -/
def wordChar (c : Char) : Bool := c.isAlphanum || c == '_'

/-- Anchored match of `ACTION_PATTERN = Action:\s*(\w+)\s*\[(.+?)\]`
(DOTALL) at the head of the list, returning the two capture groups: the
tool name and the lazy bracket body (at least one character, up to the
first closing bracket after it). -/
def actionAt (l : PyStr) : Option (PyStr × PyStr) :=
  if chsPrefixOf (toL "Action:") l then
    let r1 := (l.drop 7).dropWhile isWS
    let name := r1.takeWhile wordChar
    if name.isEmpty then none
    else
      match (r1.dropWhile wordChar).dropWhile isWS with
      | '[' :: r3 =>
        match r3 with
        | c0 :: r4 =>
          if r4.any (fun c => c == ']') then
            some (name, c0 :: r4.takeWhile (fun c => c != ']'))
          else none
        | [] => none
      | _ => none
  else none

/-- The three response shapes of `parse_llm_response`. -/
inductive Parsed where
  | final (content : PyStr)
  | action (tool_name : PyStr) (params_str : PyStr)
  | noTag (content : PyStr)
deriving DecidableEq

/-- Embeds `parse_llm_response`: the final-answer pattern is checked before the
action pattern; otherwise the stripped raw response is returned as the
"none" shape.  The action branch carries `group(2).strip()`, whose
`json.loads` is part of the abstracted tool dispatch. -/
def parse_llm_response (response : PyStr) : Parsed :=
  match reSearch finalAnswerAt response with
  | some g => .final (pyStrip g)
  | none =>
    match reSearch actionAt response with
    | some np => .action np.1 (pyStrip np.2)
    | none => .noTag (pyStrip response)

/-- Result of the ReAct iteration loop; `llm_calls` is instrumentation
counting the LLM invocations. -/
structure ReactOut where
  final_answer : Option PyStr
  history : List Msg
  llm_calls : Nat

/-- The `while iteration < max_iterations` loop of `run_react_agent`,
with the remaining iteration budget as fuel. -/
def reactLoop (llm : List Msg → PyStr) (execAction : PyStr → PyStr → PyStr) :
    Nat → List Msg → Nat → ReactOut
  | 0, h, calls => ⟨none, h, calls⟩
  | fuel + 1, h, calls =>
    let response := llm h
    match parse_llm_response response with
    | .final content => ⟨some content, h ++ [assistantMsg response], calls + 1⟩
    | .action name ps =>
      reactLoop llm execAction fuel
        (h ++ [assistantMsg response,
               userMsg (toL "Observation: " ++ execAction name ps)])
        (calls + 1)
    | .noTag _ =>
      reactLoop llm execAction fuel
        (h ++ [assistantMsg response,
               userMsg (toL "请继续思考或给出 Final Answer。")])
        (calls + 1)

/-- Embeds `run_react_agent(query, history, max_iterations)`: append the user
query, loop, and return `(final_answer.strip(), history)` — with the
literal `"任务未完成。"` when the budget is exhausted — plus the LLM call
count. -/
def run_react_agent (llm : List Msg → PyStr)
    (execAction : PyStr → PyStr → PyStr) (query : PyStr)
    (history : List Msg) (max_iterations : Nat) : PyStr × List Msg × Nat :=
  let h0 := history ++ [userMsg query]
  let out := reactLoop llm execAction max_iterations h0 0
  match out.final_answer with
  | some fa => (pyStrip fa, out.history, out.llm_calls)
  | none => (pyStrip (toL "任务未完成。"), out.history, out.llm_calls)

/-- Embeds `ConversationManager.append_message` (the JSON persistence writes the
in-memory history verbatim, so the history value also models the persisted
session document). -/
def append_message (h : List Msg) (role content : PyStr) : List Msg :=
  h ++ [⟨role, content⟩]

/-- The crude size estimate of `summarize_if_long`:
`sum(len(msg["content"]) for msg in history)`. -/
def historyContentLen (h : List Msg) : Nat :=
  (h.map (fun m => m.content.length)).sum

/-- Embeds `ConversationManager.summarize_if_long`: when the content size exceeds
`max_tokens * 4` (the source defaults `max_tokens` to 1500; callers here
pass it explicitly), replace the history with one summary system entry (the
summarization LLM call abstracted as `llmSummary`) followed by
`history[-5:]`. -/
def summarize_if_long (llmSummary : List Msg → PyStr) (h : List Msg)
    (max_tokens : Nat) : List Msg :=
  if max_tokens * 4 < historyContentLen h then
    ⟨toL "system", toL "历史摘要：" ++ llmSummary h⟩ :: h.drop (h.length - 5)
  else h

/-- Embeds `TaskDispatcher.dispatch`'s keyword list for the fallback
classification. -/
def keywords_complex : List PyStr :=
  [toL "数据库", toL "查询", toL "报告", toL "代码", toL "分析",
   toL "excel", toL "word"]

/-- The classification step of `TaskDispatcher.dispatch`: `"complex"` when
a keyword occurs in the lowered query, else the LLM's answer
(`.strip().lower()`; the on-exception fallback to `"simple"` is covered by
the oracle being total). -/
def dispatch_classification (llmClassify : PyStr → PyStr)
    (user_query : PyStr) : PyStr :=
  if keywords_complex.any (fun w => pyIn w (pyLower user_query)) then
    toL "complex"
  else pyLower (pyStrip (llmClassify user_query))

/-- Embeds `TaskDispatcher.dispatch`: classify, append the user turn, then either
answer directly (`"simple"`) or run the ReAct loop on a copy of the
history, replace the manager's history with the loop's result, append the
assistant reply, and run the summarization check.  Returns
`(reply, in-memory history, persisted session document)`: `save_session`
is invoked only from `append_message`, so the persisted
`sessions/<id>.json` equals the history at the *last* `append_message`
call — `summarize_if_long` reassigns `self.history` without writing the
file, so on the complex path the persisted document is the
pre-summarization history. -/
def dispatch (llm : List Msg → PyStr) (execAction : PyStr → PyStr → PyStr)
    (llmClassify : PyStr → PyStr) (llmSummary : List Msg → PyStr)
    (max_iterations : Nat) (conv_history : List Msg) (user_query : PyStr) :
    PyStr × List Msg × List Msg :=
  let classification := dispatch_classification llmClassify user_query
  let h1 := append_message conv_history (toL "user") user_query
  if classification = toL "simple" then
    let response := llm h1
    let h2 := append_message h1 (toL "assistant") response
    (response, h2, h2)
  else
    let r := run_react_agent llm execAction user_query h1 max_iterations
    let h2 := append_message r.2.1 (toL "assistant") r.1
    (r.1, summarize_if_long llmSummary h2 1500, h2)

/-! Section: Concrete instances used by the claim theorems -/

/-- The long-term memory of the C1 scenario: the single entry
`{scene: 销售分析, …, time_range: 2024年2月}` built by
`add_long_term_memory`. -/
def c1_mem : List LongItem :=
  add_long_term_memory [] (toL "销售分析")
    (toL "2024年2月销售额100万，同比增长20%")
    (toL "./202402_sales_report.xlsx") (toL "2025-01-01 00:00:00")
    [(toL "time_range", toL "2024年2月")]

/-- The short-term memory after `update_context("帮我生成对应的Excel报表")`
in the C1 scenario. -/
def c1_short : ShortMem :=
  update_context c1_mem [] (toL "帮我生成对应的Excel报表") true

/-- The concrete task of the C9 witness. -/
def c9_task : Task :=
  { task_id := toL "task_001", task_type := toL "sql_query"
    scene := toL "销售分析", mcp_config := []
    params := [(toL "time_range", .s (toL "2024年2月"))]
    priority := 1, create_time := toL "2025-01-01 00:00:00"
    status := toL "pending" }

/-- The scene info the C9 witness's task resolves to. -/
def c9_info : SceneInfo :=
  (dictGet scene_mapping (toL "销售分析")).getD ⟨[], [], []⟩

/-- The seed session history of the C10 witness (the conversation
manager's initial system entry). -/
def c10_seed : List Msg :=
  [⟨toL "system", toL "系统提示：你是智能助手，使用ReAct框架。"⟩]

/-! Section: Shared lemmas about the Python-string primitives -/

theorem chsPrefixOf_iff (t : PyStr) : ∀ s : PyStr, chsPrefixOf t s = true ↔ t <+: s := by
  induction t with
  | nil => intro s; simp [chsPrefixOf]
  | cons a t ih =>
    intro s
    cases s with
    | nil => simp [chsPrefixOf]
    | cons b s =>
      simp [chsPrefixOf, List.cons_prefix_cons, Bool.and_eq_true, beq_iff_eq, ih]

theorem pyIn_iff (t : PyStr) : ∀ s : PyStr, pyIn t s = true ↔ t <:+: s := by
  intro s
  induction s with
  | nil => simp [pyIn, List.isEmpty_iff]
  | cons c s ih =>
    simp [pyIn, Bool.or_eq_true, chsPrefixOf_iff, ih, List.infix_cons_iff]

theorem infix_dropWhile_of_head (p : Char → Bool) {c : Char} {t l : PyStr}
    (hc : p c = false) (h : (c :: t) <:+: l) :
    (c :: t) <:+: l.dropWhile p := by
  induction l with
  | nil => simp at h
  | cons b l ih =>
    rw [List.dropWhile_cons]
    by_cases hb : p b = true
    · rw [if_pos hb]
      rcases List.infix_cons_iff.mp h with hpre | hinf
      · rcases List.cons_prefix_cons.mp hpre with ⟨rfl, -⟩
        rw [hb] at hc; exact absurd hc (by simp)
      · exact ih hinf
    · rw [if_neg hb]
      exact h

theorem infix_pyStrip {t l : PyStr} (h : t <:+: l) (hne : t ≠ [])
    (hh : ∀ a ∈ t.head?, isWS a = false)
    (hl : ∀ a ∈ t.getLast?, isWS a = false) :
    t <:+: pyStrip l := by
  rcases List.exists_cons_of_ne_nil hne with ⟨c, t', rfl⟩
  have h1 : (c :: t') <:+: l.dropWhile isWS :=
    infix_dropWhile_of_head isWS (hh c (by simp)) h
  have h2 : (c :: t').reverse <:+: (l.dropWhile isWS).reverse :=
    List.reverse_infix.mpr h1
  rcases List.exists_cons_of_ne_nil
      (l := (c :: t').reverse) (by simp) with ⟨d, r', hrev⟩
  have hd : (c :: t').getLast? = some d := by
    rw [← List.head?_reverse, hrev]; rfl
  have hdw : isWS d = false := hl d hd
  rw [hrev] at h2
  have h3 : (d :: r') <:+: ((l.dropWhile isWS).reverse).dropWhile isWS :=
    infix_dropWhile_of_head isWS hdw h2
  rw [← hrev] at h3
  exact List.reverse_infix.mp (by simpa [pyStrip] using h3)

theorem pyIn_pyStrip {t l : PyStr} (h : pyIn t l = true) (hne : t ≠ [])
    (hh : ∀ a ∈ t.head?, isWS a = false)
    (hl : ∀ a ∈ t.getLast?, isWS a = false) :
    pyIn t (pyStrip l) = true :=
  (pyIn_iff t (pyStrip l)).mpr
    (infix_pyStrip ((pyIn_iff t l).mp h) hne hh hl)

theorem infix_map_upper {t l : PyStr} (h : t <:+: l) :
    pyUpper t <:+: pyUpper l := by
  rcases h with ⟨u, v, rfl⟩
  exact ⟨pyUpper u, pyUpper v, by simp [pyUpper]⟩

theorem reSearch_isSome_of_suffix {β : Type} (m : PyStr → Option β)
    {l s : PyStr} (hs : s <:+ l) (hm : (m s).isSome) :
    (reSearch m l).isSome := by
  induction l with
  | nil =>
    rw [List.suffix_nil] at hs
    subst hs
    simpa [reSearch] using hm
  | cons c t ih =>
    rw [reSearch]
    cases hmc : m (c :: t) with
    | some r => simp
    | none =>
      rcases List.suffix_cons_iff.mp hs with rfl | hs'
      · rw [hmc] at hm; simp at hm
      · simpa using ih hs'

theorem reSearch_eq_some {β : Type} (m : PyStr → Option β) :
    ∀ {l : PyStr} {r : β}, reSearch m l = some r →
      ∃ s, s <:+ l ∧ m s = some r := by
  intro l
  induction l with
  | nil =>
    intro r h
    rw [reSearch] at h
    exact ⟨[], List.nil_suffix, h⟩
  | cons c t ih =>
    intro r h
    cases hmc : m (c :: t) with
    | some r' =>
      rw [reSearch, hmc] at h
      simp only [] at h
      exact ⟨c :: t, List.suffix_refl _, by rw [hmc, h]⟩
    | none =>
      rw [reSearch, hmc] at h
      simp only [] at h
      rcases ih h with ⟨s, hs, hm⟩
      exact ⟨s, hs.trans (List.suffix_cons c t), hm⟩

theorem matchP1At_getLast : ∀ {s r : PyStr}, matchP1At s = some r →
    r.getLast? = some '月' := by
  intro s r h
  obtain - | ⟨a, - | ⟨b, - | ⟨c, - | ⟨d, - | ⟨y, rest⟩⟩⟩⟩⟩ := s <;>
    simp only [matchP1At] at h
  case cons.cons.cons.cons.cons =>
    by_cases h0 : (a.isDigit && b.isDigit && c.isDigit && d.isDigit
        && y == '年') = true
    · rw [if_pos h0] at h
      obtain - | ⟨e, - | ⟨f, - | ⟨g, tail⟩⟩⟩ := rest <;> simp only [] at h
      · exact absurd h (by simp)
      · exact absurd h (by simp)
      · by_cases h1 : (e.isDigit && f == '月') = true
        · rw [if_pos h1] at h
          injection h with hr
          subst hr
          have hf : f = '月' := by
            rw [Bool.and_eq_true, beq_iff_eq] at h1
            exact h1.2
          subst hf
          rfl
        · rw [if_neg h1] at h
          exact absurd h (by simp)
      · by_cases h1 : (e.isDigit && f.isDigit && g == '月') = true
        · rw [if_pos h1] at h
          injection h with hr
          subst hr
          have hg : g = '月' := by
            rw [Bool.and_eq_true, Bool.and_eq_true, beq_iff_eq] at h1
            exact h1.2
          subst hg
          rfl
        · rw [if_neg h1] at h
          by_cases h2 : (e.isDigit && f == '月') = true
          · rw [if_pos h2] at h
            injection h with hr
            subst hr
            have hf : f = '月' := by
              rw [Bool.and_eq_true, beq_iff_eq] at h2
              exact h2.2
            subst hf
            rfl
          · rw [if_neg h2] at h
            exact absurd h (by simp)
    · rw [if_neg h0] at h
      exact absurd h (by simp)
  all_goals exact absurd h (by simp)

theorem matchP1At_on_occurrence (v : PyStr) :
    ∃ r, matchP1At (toL "2024年2月" ++ v) = some r := by
  cases v with
  | nil => exact ⟨toL "2024年2月", rfl⟩
  | cons c v' => exact ⟨toL "2024年2月", rfl⟩

theorem reactLoop_history_extends (llm : List Msg → PyStr)
    (execAction : PyStr → PyStr → PyStr) :
    ∀ (fuel : Nat) (h : List Msg) (calls : Nat),
      ∃ ext, (reactLoop llm execAction fuel h calls).history = h ++ ext := by
  intro fuel
  induction fuel with
  | zero => intro h calls; exact ⟨[], by simp [reactLoop]⟩
  | succ n ih =>
    intro h calls
    rw [reactLoop]
    cases parse_llm_response (llm h) with
    | final content => exact ⟨_, rfl⟩
    | action name ps =>
      rcases ih (h ++ [assistantMsg (llm h),
        userMsg (toL "Observation: " ++ execAction name ps)]) (calls + 1)
        with ⟨ext, hext⟩
      exact ⟨_, by rw [hext, List.append_assoc]⟩
    | noTag c =>
      rcases ih (h ++ [assistantMsg (llm h),
        userMsg (toL "请继续思考或给出 Final Answer。")]) (calls + 1)
        with ⟨ext, hext⟩
      exact ⟨_, by rw [hext, List.append_assoc]⟩

theorem reactLoop_never_final (llm : List Msg → PyStr)
    (execAction : PyStr → PyStr → PyStr)
    (hllm : ∀ h, reSearch finalAnswerAt (llm h) = none) :
    ∀ (fuel : Nat) (h : List Msg) (calls : Nat),
      (reactLoop llm execAction fuel h calls).final_answer = none
      ∧ (reactLoop llm execAction fuel h calls).llm_calls = calls + fuel := by
  intro fuel
  induction fuel with
  | zero => intro h calls; simp [reactLoop]
  | succ n ih =>
    intro h calls
    rw [reactLoop]
    have hp : ∀ {x}, parse_llm_response (llm h) ≠ .final x := by
      intro x hx
      unfold parse_llm_response at hx
      rw [hllm h] at hx
      cases hr : reSearch actionAt (llm h) with
      | some np => rw [hr] at hx; cases hx
      | none => rw [hr] at hx; cases hx
    cases hpr : parse_llm_response (llm h) with
    | final content => exact absurd hpr hp
    | action name ps =>
      have := ih (h ++ [assistantMsg (llm h),
        userMsg (toL "Observation: " ++ execAction name ps)]) (calls + 1)
      exact ⟨this.1, by rw [this.2]; omega⟩
    | noTag c =>
      have := ih (h ++ [assistantMsg (llm h),
        userMsg (toL "请继续思考或给出 Final Answer。")]) (calls + 1)
      exact ⟨this.1, by rw [this.2]; omega⟩

theorem findSome?_isSome_of_mem {α β : Type} (f : α → Option β)
    {l : List α} {a : α} (ha : a ∈ l) (hf : (f a).isSome) :
    (l.findSome? f).isSome := by
  induction l with
  | nil => cases ha
  | cons x t ih =>
    rw [List.findSome?_cons]
    cases hx : f x with
    | some b => simp
    | none =>
      rcases List.mem_cons.mp ha with rfl | hat
      · rw [hx] at hf; simp at hf
      · simpa using ih hat

/-! Section: Shared lemmas about the dict primitives -/

theorem dictGet_dictSet_self {α : Type} (d : List (PyStr × α)) (k : PyStr)
    (v : α) : dictGet (dictSet d k v) k = some v := by
  induction d with
  | nil => simp [dictSet, dictGet]
  | cons kv d ih =>
    by_cases hk : kv.1 = k
    · simp [dictSet, hk, dictGet]
    · cases kv with
      | mk k' v' =>
        simp only at hk
        simp [dictSet, hk, dictGet, ih]

theorem dictGet_dictSet_ne {α : Type} (d : List (PyStr × α)) {k k' : PyStr}
    (v : α) (hne : k' ≠ k) : dictGet (dictSet d k v) k' = dictGet d k' := by
  have hkk : ¬ k = k' := fun hh => hne hh.symm
  induction d with
  | nil => simp [dictSet, dictGet, hkk]
  | cons kv d ih =>
    cases kv with
    | mk k0 v0 =>
      by_cases hk : k0 = k
      · subst hk
        simp [dictSet, dictGet, hkk]
      · simp [dictSet, hk, dictGet, ih]

/-! Section: Claim theorems -/

/-- C1: Context completion round-trip.  The claim states that with one
long-term entry `{scene: 销售分析, time_range: 2024年2月}` and the input
"帮我生成对应的Excel报表", `extract_key_context()` after `update_context`
returns scene = 销售分析 and time_range = 2024年2月.  Evaluating the
embedded code shows both fields stay at the `未提及` sentinel: the source's
`get_long_term_memory(latest_only=True)` call passes no scene, so it
returns the whole *list*, and the guard `"scene" in <list of dicts>` is a
list-membership test over dict elements, which is always false — even
though the long-term entry does carry the scene and time range. -/
theorem c1_context_completion_not_copied :
    dictGet (extract_key_context c1_short) (toL "scene")
      = some (toL "未提及")
    ∧ dictGet (extract_key_context c1_short) (toL "time_range")
      = some (toL "未提及")
    ∧ get_long_term_memory c1_mem none true = .list c1_mem
    ∧ ltContains (toL "scene") (get_long_term_memory c1_mem none true)
      = false
    ∧ dictGet ((c1_mem.getLast?).getD []) (toL "scene")
      = some (toL "销售分析")
    ∧ dictGet ((c1_mem.getLast?).getD []) (toL "time_range")
      = some (toL "2024年2月") := by
  decide

/-- C3: Sandbox safety screen rejects dangerous imports.  For every script
containing *any* forbidden-module import spelling — the literal
`"import os"` in particular, or any other pattern such as
`"from os import"` or `"import subprocess"` — and every behaviour of the
child process, `run_script_in_sandbox` returns a failure whose message is
`安全校验失败：` followed by the rejection text naming a forbidden module
whose import spelling occurs in the script, and the child process is never
started (`subprocess_started = false`, and the result does not depend on
the `run_subprocess` oracle at all). -/
theorem c3_sandbox_rejects_forbidden_imports
    (run_subprocess : PyStr → Bool × PyStr) (script : PyStr)
    (h : ∃ m ∈ forbidden_modules, ∃ pat ∈ import_patterns m,
      pyIn pat script = true) :
    ∃ m' pat', m' ∈ forbidden_modules ∧ pat' ∈ import_patterns m'
      ∧ pyIn pat' (pyStrip script) = true
      ∧ run_script_in_sandbox run_subprocess script =
          .ok ⟨false, toL "安全校验失败：" ++ (toL "禁止导入危险模块「" ++ m'
                ++ toL "」，脚本包含：" ++ pat'), false⟩ := by
  obtain ⟨m, hm, pat, hpat, hin⟩ := h
  have hTable : ∀ m0 ∈ forbidden_modules, ∀ p ∈ import_patterns m0,
      p ≠ [] ∧ (∀ a ∈ p.head?, isWS a = false)
        ∧ (∀ a ∈ p.getLast?, isWS a = false) := by decide
  obtain ⟨hne, hh, hl⟩ := hTable m hm pat hpat
  have hs : pyIn pat (pyStrip script) = true := pyIn_pyStrip hin hne hh hl
  have hscriptne : script ≠ [] := by
    intro hnil
    rw [hnil] at hin
    simp only [pyIn, List.isEmpty_iff] at hin
    exact hne hin
  have hstripne : pyStrip script ≠ [] := by
    intro hnil
    rw [hnil] at hs
    simp only [pyIn, List.isEmpty_iff] at hs
    exact hne hs
  have h1 : script.isEmpty = false := by
    cases script with
    | nil => exact absurd rfl hscriptne
    | cons c t => rfl
  have h2 : (pyStrip script).isEmpty = false := by
    cases hps : pyStrip script with
    | nil => exact absurd hps hstripne
    | cons c t => rfl
  have hfsome : ((import_patterns m).find?
      (fun p => pyIn p (pyStrip script))).isSome :=
    List.find?_isSome.mpr ⟨pat, hpat, hs⟩
  have hsome : (findModuleHit (pyStrip script)).isSome := by
    unfold findModuleHit
    refine findSome?_isSome_of_mem _ hm ?_
    rcases Option.isSome_iff_exists.mp hfsome with ⟨p0, hp0⟩
    rw [hp0]
    rfl
  rcases Option.isSome_iff_exists.mp hsome with ⟨mp, hmp⟩
  have hmp' := hmp
  unfold findModuleHit at hmp'
  obtain ⟨m', hm', hf⟩ := List.exists_of_findSome?_eq_some hmp'
  obtain ⟨pat', hfind, heq⟩ := Option.map_eq_some'.mp hf
  have hps' : pat' ∈ import_patterns m' := List.mem_of_find?_eq_some hfind
  have hptrue := List.find?_some hfind
  refine ⟨m', pat', hm', hps', hptrue, ?_⟩
  subst heq
  unfold run_script_in_sandbox check_script_safety
  simp only [h1, h2, Bool.or_self, Bool.false_eq_true, if_false, hmp]
  rfl

/-- Witness for C3 at the concrete script
`"from socket import create_connection"`, an import spelling other than
the literal `import os`. -/
theorem c3_sandbox_rejects_forbidden_imports_witness :
    (∃ m ∈ forbidden_modules, ∃ pat ∈ import_patterns m,
      pyIn pat (toL "from socket import create_connection") = true)
    ∧ ∃ m' pat', m' ∈ forbidden_modules ∧ pat' ∈ import_patterns m'
      ∧ pyIn pat'
          (pyStrip (toL "from socket import create_connection")) = true
      ∧ run_script_in_sandbox (fun _ => (true, []))
          (toL "from socket import create_connection") =
          .ok ⟨false, toL "安全校验失败：" ++ (toL "禁止导入危险模块「" ++ m'
                ++ toL "」，脚本包含：" ++ pat'), false⟩ :=
  ⟨by decide,
   c3_sandbox_rejects_forbidden_imports (fun _ => (true, []))
     (toL "from socket import create_connection") (by decide)⟩

/-- C4: Sandbox clean-script success.  The claim states that a script with
no forbidden tokens returns success with its captured stdout verbatim.  The
code passes the safety screen, but `_generate_standalone_exec_code` joins
the generated lines with the literal two-character text `\n` (the source
writes `"\\n".join(...)`), so the whole generated program is one physical
line beginning with `#` — a comment-only Python file.  The child process
therefore exits 0 with empty stdout (modelled by the oracle returning the
`[STDOUT]`/`[STDERR]` frame of `_run_subprocess` around empty streams), the
sandbox reports success, and the script's own output (`hello`) appears
nowhere in the returned message. -/
theorem c4_sandbox_clean_script_stdout_lost :
    check_script_safety (toL "print(\"hello\")") =
      .ok (true, toL "Python脚本安全校验通过")
    ∧ (generate_standalone_exec_code (toL "print(\"hello\")")).head?
      = some '#'
    ∧ (generate_standalone_exec_code (toL "print(\"hello\")")).all
        (fun c => c != '\n') = true
    ∧ run_script_in_sandbox
        (fun _ => (true, toL "[STDOUT]\\n\\n\\n[STDERR]\\n"))
        (toL "print(\"hello\")") =
        .ok ⟨true, toL "[OK] 脚本执行成功\\n\\n"
              ++ toL "[STDOUT]\\n\\n\\n[STDERR]\\n", true⟩
    ∧ pyIn (toL "hello") (toL "[OK] 脚本执行成功\\n\\n"
        ++ toL "[STDOUT]\\n\\n\\n[STDERR]\\n") = false := by
  set_option maxRecDepth 40000 in decide

/-- C6 counterexample: at `keep_latest_n = 0` the claim's postcondition
`length ≤ N` fails — Python's `lst[-0:]` is `lst[0:]`, the whole list, so
trimming a one-element list to "keep 0" keeps everything. -/
theorem c6_memory_trim_counterexample :
    clear_expired_long_term_memory 0 [toL "item"] = [toL "item"]
    ∧ (clear_expired_long_term_memory 0 [toL "item"]).length = 1
    ∧ 0 < (clear_expired_long_term_memory 0 [toL "item"]).length := by
  decide

/-- C6 (amended): Memory trim postcondition for every `N ≥ 1`: after
`clear_expired_long_term_memory(keep_latest_n = N)` the list equals the
last `min(N, length)` items of the pre-trim list in original order — i.e.
it is `drop (length − N)`, has length `min N length`, and is a suffix of
the pre-trim list (items removed only from the oldest end, none mutated or
reordered).  At `N = 0` the slice `lst[-0:]` keeps the whole list, so the
claim is restricted to `N ≥ 1`. -/
theorem c6_memory_trim_postcondition {α : Type} (mem : List α) (n : Nat)
    (hn : 1 ≤ n) :
    clear_expired_long_term_memory n mem = mem.drop (mem.length - n)
    ∧ (clear_expired_long_term_memory n mem).length = min n mem.length
    ∧ clear_expired_long_term_memory n mem <:+ mem := by
  unfold clear_expired_long_term_memory pySliceTail
  by_cases h : n < mem.length
  · rw [if_pos h, if_neg (by omega)]
    refine ⟨rfl, ?_, List.drop_suffix _ _⟩
    rw [List.length_drop]
    omega
  · rw [if_neg h]
    have hlen : mem.length ≤ n := Nat.le_of_not_lt h
    refine ⟨?_, ?_, List.suffix_refl _⟩
    · rw [Nat.sub_eq_zero_of_le hlen, List.drop_zero]
    · omega

/-- Witness for C6 at `N = 1` on a two-element list. -/
theorem c6_memory_trim_postcondition_witness :
    (1 ≤ 1)
    ∧ clear_expired_long_term_memory 1 [(10 : Nat), 20] <:+ [(10 : Nat), 20] :=
  ⟨Nat.le_refl 1,
   (c6_memory_trim_postcondition [(10 : Nat), 20] 1 (Nat.le_refl 1)).2.2⟩

/-- C8: Data-type extraction.  The claim states a label is returned only
when the complete label occurs as a substring, with `未指定数据类型`
otherwise.  On the input `"数"` — which contains none of the four complete
labels — the code returns `销售数据`, because the source's
`any(word in user_input for word in data_type)` iterates over the
*characters* of each label, and the single character `数` occurs in the
input. -/
theorem c8_data_type_single_char_match :
    extract_data_type (toL "数") = toL "销售数据"
    ∧ data_types.all (fun dt => !(pyIn dt (toL "数"))) = true
    ∧ (extract_data_type (toL "数") == toL "未指定数据类型") = false := by
  decide

/-- C5: SQL safety gate.  (i) `_verify_sql` returns false for every string
containing `DROP`/`DELETE`/`TRUNCATE`/`ALTER` as a substring in any letter
case (formalised: some substring of `sql` uppercases to the keyword);
(ii) it returns true for a plain `SELECT … WHERE …` statement containing
none of those substrings; (iii) whenever `_verify_sql` rejects the
generated statement, `SQLGenerator.execute` returns a failed envelope and
`_execute_sql` is never reached (second component `false`). -/
theorem c5_sql_safety_gate :
    (∀ (sql kw sub : PyStr), kw ∈ dangerous_sql_keywords → sub <:+: sql →
      pyUpper sub = kw → verify_sql sql = false)
    ∧ verify_sql (toL "SELECT cost_amount,cost_type FROM cost_wide_table WHERE create_time LIKE \x27%2024年2月%\x27;") = true
    ∧ (∀ (dtf dop now : PyStr) (td : SqlTaskDict),
        verify_sql (generate_sql
          (((standardize_input dop td).params.query_demand).getD [])
          (((standardize_input dop td).params.wide_table).getD [])
          (((standardize_input dop td).params.time_range).getD [])
          (((standardize_input dop td).params.field_mapping).getD []) dtf)
          = false →
        (sqlgen_execute true dtf dop now td).1.status = toL "failed"
        ∧ (sqlgen_execute true dtf dop now td).2 = false) := by
  refine ⟨?_, by decide, ?_⟩
  · intro sql kw sub hkw hsub hup
    have h2 : pyIn kw (pyUpper sql) = true :=
      (pyIn_iff _ _).mpr (hup ▸ infix_map_upper hsub)
    have hany : dangerous_sql_keywords.any
        (fun kw' => pyIn kw' (pyUpper sql)) = true :=
      List.any_eq_true.mpr ⟨kw, hkw, h2⟩
    unfold verify_sql
    rw [hany]
    rfl
  · intro dtf dop now td hv
    unfold sqlgen_execute
    simp only [Bool.not_true, Bool.false_eq_true, if_false]
    by_cases hg : ((((standardize_input dop td).params.query_demand).getD
        []).isEmpty
        || (((standardize_input dop td).params.wide_table).getD
          []).isEmpty) = true
    · rw [if_pos hg]
      exact ⟨rfl, rfl⟩
    · rw [if_neg hg, hv]
      exact ⟨rfl, rfl⟩

/-- Witness for C5: the keyword hypothesis at `sql = "drop table t"` (whose
substring `drop` uppercases to `DROP`), and the execute-path hypothesis at
a task whose wide-table parameter smuggles `DROP TABLE` into the generated
statement. -/
theorem c5_sql_safety_gate_witness :
    verify_sql (toL "drop table t") = false
    ∧ ((sqlgen_execute true (toL "create_time") (toL "./data/output")
          (toL "2025-01-01")
          { task_id := some (toL "t1"), task_type := some (toL "sql_query")
            scene := some (toL "成本分析")
            params := some
              { query_demand := some (toL "查成本")
                wide_table := some (toL "cost_wide_table; DROP TABLE x")
                time_range := some (toL "2024年2月")
                field_mapping := some [(toL "成本金额", toL "cost_amount")] }
            output_path := some (toL "./o") }).1.status = toL "failed"
        ∧ (sqlgen_execute true (toL "create_time") (toL "./data/output")
            (toL "2025-01-01")
            { task_id := some (toL "t1"), task_type := some (toL "sql_query")
              scene := some (toL "成本分析")
              params := some
                { query_demand := some (toL "查成本")
                  wide_table := some (toL "cost_wide_table; DROP TABLE x")
                  time_range := some (toL "2024年2月")
                  field_mapping := some [(toL "成本金额", toL "cost_amount")] }
              output_path := some (toL "./o") }).2 = false) :=
  ⟨c5_sql_safety_gate.1 (toL "drop table t") (toL "DROP") (toL "drop")
      (by decide) (by decide) (by decide),
   c5_sql_safety_gate.2.2 (toL "create_time") (toL "./data/output")
      (toL "2025-01-01") _ (by decide)⟩

/-- C7 counterexample: the input `"2023年1月，2024年2月"` contains
`"2024年2月"`, yet `_extract_time_range` returns the *earlier* leftmost
`YYYY年M月` match `"2023年1月"`, not `"2024年2月"` — so the claim's
universal "for every input containing 2024年2月 the extractor returns
exactly 2024年2月" is false as stated. -/
theorem c7_time_range_counterexample :
    pyIn (toL "2024年2月") (toL "2023年1月，2024年2月") = true
    ∧ extract_time_range (toL "2023年1月，2024年2月") = toL "2023年1月"
    ∧ (extract_time_range (toL "2023年1月，2024年2月") == toL "2024年2月")
      = false := by
  decide

/-- C7 (amended): Parser time-range precedence.  For every input containing
`"2024年2月"` the first pattern `YYYY年M月` has a match, and the extractor
returns that pattern's leftmost match — a string ending in `月`, hence
never the looser `"2024年"` and never the `"未指定时间"` fallback; when
`"2024年2月"` is the leftmost such match (e.g. on
`"帮我分析2024年2月的销售数据"`), exactly `"2024年2月"` is returned; and
when none of the four patterns matches, the literal `"未指定时间"` is
returned.  (The original claim's "returns exactly 2024年2月 for *every*
such input" fails when an earlier `YYYY年M月` occurrence precedes it.) -/
theorem c7_time_range_precedence :
    (∀ input : PyStr, pyIn (toL "2024年2月") input = true →
      ∃ r, reSearch matchP1At input = some r
        ∧ extract_time_range input = r
        ∧ r.getLast? = some '月'
        ∧ r ≠ toL "2024年" ∧ r ≠ toL "未指定时间")
    ∧ extract_time_range (toL "帮我分析2024年2月的销售数据") = toL "2024年2月"
    ∧ (∀ input : PyStr, reSearch matchP1At input = none →
        reSearch matchP2At input = none → reSearch matchP3At input = none →
        reSearch matchP4At input = none →
        extract_time_range input = toL "未指定时间") := by
  refine ⟨?_, by decide, ?_⟩
  · intro input hin
    rcases (pyIn_iff _ _).mp hin with ⟨u, v, huv⟩
    have hsfx : (toL "2024年2月" ++ v) <:+ input :=
      ⟨u, by rw [← List.append_assoc]; exact huv⟩
    rcases matchP1At_on_occurrence v with ⟨r0, hr0⟩
    have hsome : (reSearch matchP1At input).isSome :=
      reSearch_isSome_of_suffix _ hsfx (by rw [hr0]; rfl)
    rcases Option.isSome_iff_exists.mp hsome with ⟨r, hr⟩
    rcases reSearch_eq_some _ hr with ⟨s, -, hms⟩
    have hlast := matchP1At_getLast hms
    refine ⟨r, hr, ?_, hlast, ?_, ?_⟩
    · unfold extract_time_range
      rw [hr]
    · intro hcon; rw [hcon] at hlast; exact absurd hlast (by decide)
    · intro hcon; rw [hcon] at hlast; exact absurd hlast (by decide)
  · intro input h1 h2 h3 h4
    unfold extract_time_range
    rw [h1, h2, h3, h4]

/-- Witness for C7: the containment branch at
`"帮我分析2024年2月的销售数据"` and the fallback branch at `"hello"`. -/
theorem c7_time_range_precedence_witness :
    (pyIn (toL "2024年2月") (toL "帮我分析2024年2月的销售数据") = true
      ∧ ∃ r, reSearch matchP1At (toL "帮我分析2024年2月的销售数据") = some r
        ∧ extract_time_range (toL "帮我分析2024年2月的销售数据") = r
        ∧ r.getLast? = some '月'
        ∧ r ≠ toL "2024年" ∧ r ≠ toL "未指定时间")
    ∧ extract_time_range (toL "hello") = toL "未指定时间" :=
  ⟨⟨by decide,
    c7_time_range_precedence.1 (toL "帮我分析2024年2月的销售数据") (by decide)⟩,
   c7_time_range_precedence.2.2 (toL "hello") (by decide) (by decide)
     (by decide) (by decide)⟩

/-- C9: Scenario match is non-mutating.  For every task whose scene is in
the mapping table (and whose params lack a `wide_table` key, as the claim
assumes), `match_scene_to_table` returns `ok (task, t')` — the first
component being the argument's state after the call, unchanged, so a second
call on the same original task produces an identical result and the
original's params still have no `wide_table` key — where the new task `t'`
keeps every other field and its params are the original params *extended*
(not replaced) with `wide_table`, `process_rules` and `field_mapping`. -/
theorem c9_match_scene_nonmutating (task : Task) (info : SceneInfo)
    (hs : dictGet scene_mapping task.scene = some info)
    (hw : dictGet task.params (toL "wide_table") = none) :
    ∃ t', match_scene_to_table task = .ok (task, t')
      ∧ dictGet t'.params (toL "wide_table") = some (.s info.wide_table)
      ∧ dictGet t'.params (toL "process_rules")
        = some (.ls info.process_rules)
      ∧ dictGet t'.params (toL "field_mapping")
        = some (.sm info.field_mapping)
      ∧ (∀ k, k ≠ toL "wide_table" → k ≠ toL "process_rules" →
          k ≠ toL "field_mapping" →
          dictGet t'.params k = dictGet task.params k)
      ∧ t'.task_id = task.task_id ∧ t'.task_type = task.task_type
      ∧ t'.scene = task.scene ∧ t'.mcp_config = task.mcp_config
      ∧ t'.priority = task.priority ∧ t'.create_time = task.create_time
      ∧ t'.status = task.status
      ∧ dictGet task.params (toL "wide_table") = none := by
  unfold match_scene_to_table
  rw [hs]
  refine ⟨_, rfl, ?_, ?_, ?_, ?_, rfl, rfl, rfl, rfl, rfl, rfl, rfl, hw⟩
  all_goals simp only [dictUpdate, dictCopy, List.foldl]
  · rw [dictGet_dictSet_ne _ _ (by decide), dictGet_dictSet_ne _ _ (by decide),
      dictGet_dictSet_self]
  · rw [dictGet_dictSet_ne _ _ (by decide), dictGet_dictSet_self]
  · rw [dictGet_dictSet_self]
  · intro k hk1 hk2 hk3
    rw [dictGet_dictSet_ne _ _ hk3, dictGet_dictSet_ne _ _ hk2,
      dictGet_dictSet_ne _ _ hk1]

/-- Witness for C9 at the concrete 销售分析 task. -/
theorem c9_match_scene_nonmutating_witness :
    dictGet scene_mapping c9_task.scene = some c9_info
    ∧ dictGet c9_task.params (toL "wide_table") = none
    ∧ ∃ t', match_scene_to_table c9_task = .ok (c9_task, t')
      ∧ dictGet t'.params (toL "wide_table") = some (.s c9_info.wide_table)
      ∧ dictGet t'.params (toL "process_rules")
        = some (.ls c9_info.process_rules)
      ∧ dictGet t'.params (toL "field_mapping")
        = some (.sm c9_info.field_mapping)
      ∧ (∀ k, k ≠ toL "wide_table" → k ≠ toL "process_rules" →
          k ≠ toL "field_mapping" →
          dictGet t'.params k = dictGet c9_task.params k)
      ∧ t'.task_id = c9_task.task_id ∧ t'.task_type = c9_task.task_type
      ∧ t'.scene = c9_task.scene ∧ t'.mcp_config = c9_task.mcp_config
      ∧ t'.priority = c9_task.priority
      ∧ t'.create_time = c9_task.create_time
      ∧ t'.status = c9_task.status
      ∧ dictGet c9_task.params (toL "wide_table") = none :=
  ⟨by decide, by decide,
   c9_match_scene_nonmutating c9_task c9_info (by decide) (by decide)⟩

/-- Helper for C10: the history returned by `run_react_agent` is the loop's
history in both termination modes. -/
theorem run_react_agent_history (llm : List Msg → PyStr)
    (execAction : PyStr → PyStr → PyStr) (query : PyStr) (h : List Msg)
    (m : Nat) :
    (run_react_agent llm execAction query h m).2.1
      = (reactLoop llm execAction m (h ++ [userMsg query]) 0).history := by
  unfold run_react_agent
  cases hfa : (reactLoop llm execAction m (h ++ [userMsg query]) 0).final_answer
    <;> simp [hfa]

/-- C2: ReAct loop termination modes.  (i) For every seed history, LLM
response function and tool oracle, if the first LLM response (the one for
the seed plus the appended user turn) matches the `Final Answer:` pattern
with capture `g`, then `run_react_agent` returns the stripped capture, the
history is exactly the seed plus two new entries (the user input and the
one assistant reply), and exactly one LLM call was made (hence `maxIter ≥ 1`
is assumed — with a zero iteration budget no first response exists).
(ii) If no LLM response ever matches the pattern, the function returns the
literal `"任务未完成。"` after exactly `max_iterations` LLM calls. -/
theorem c2_react_termination_modes :
    (∀ (llm : List Msg → PyStr) (execAction : PyStr → PyStr → PyStr)
      (seed : List Msg) (query g : PyStr) (maxIter : Nat),
      1 ≤ maxIter →
      reSearch finalAnswerAt (llm (seed ++ [userMsg query])) = some g →
      run_react_agent llm execAction query seed maxIter =
        (pyStrip (pyStrip g),
         seed ++ [userMsg query,
           assistantMsg (llm (seed ++ [userMsg query]))], 1))
    ∧ (∀ (llm : List Msg → PyStr) (execAction : PyStr → PyStr → PyStr)
      (seed : List Msg) (query : PyStr) (maxIter : Nat),
      (∀ h, reSearch finalAnswerAt (llm h) = none) →
      (run_react_agent llm execAction query seed maxIter).1
        = toL "任务未完成。"
      ∧ (run_react_agent llm execAction query seed maxIter).2.2
        = maxIter) := by
  constructor
  · intro llm execAction seed query g maxIter h1 hfin
    obtain ⟨k, rfl⟩ : ∃ k, maxIter = k + 1 := ⟨maxIter - 1, by omega⟩
    have hp : parse_llm_response (llm (seed ++ [userMsg query]))
        = .final (pyStrip g) := by
      unfold parse_llm_response
      rw [hfin]
    simp only [run_react_agent, reactLoop, hp]
    simp [List.append_assoc]
  · intro llm execAction seed query maxIter hnever
    have h := reactLoop_never_final llm execAction hnever maxIter
      (seed ++ [userMsg query]) 0
    constructor
    · simp only [run_react_agent, h.1]
      decide
    · simp only [run_react_agent, h.1]
      rw [h.2]
      omega

/-- Witness for C2: a stub answering `Final Answer: 42` on the first call
(one LLM call, two new history entries), and a stub that never answers
(returns `任务未完成。` after exactly 3 calls with budget 3). -/
theorem c2_react_termination_modes_witness :
    (run_react_agent (fun _ => toL "Final Answer: 42") (fun _ _ => [])
        (toL "hi") [] 1
      = (pyStrip (pyStrip (toL "42")),
         [] ++ [userMsg (toL "hi"), assistantMsg (toL "Final Answer: 42")],
         1))
    ∧ (run_react_agent (fun _ => toL "think") (fun _ _ => [])
        (toL "hi") [] 3).1 = toL "任务未完成。"
    ∧ (run_react_agent (fun _ => toL "think") (fun _ _ => [])
        (toL "hi") [] 3).2.2 = 3 := by
  have hthink : reSearch finalAnswerAt (toL "think") = none := by decide
  refine ⟨?_, ?_, ?_⟩
  · exact c2_react_termination_modes.1 (fun _ => toL "Final Answer: 42")
      (fun _ _ => []) [] (toL "hi") (toL "42") 1 (by decide) (by decide)
  · exact (c2_react_termination_modes.2 (fun _ => toL "think")
      (fun _ _ => []) [] (toL "hi") 3 (fun _ => hthink)).1
  · exact (c2_react_termination_modes.2 (fun _ => toL "think")
      (fun _ _ => []) [] (toL "hi") 3 (fun _ => hthink)).2

/-- C10: ReAct complex-path user-message duplication.  For every query the
classifier does not label `"simple"`, `dispatch` appends the user query to
the conversation history once itself and passes that history to
`run_react_agent`, which appends the same query again — so after `dispatch`
returns, the persisted session document contains two consecutive user
entries with the identical query text.  The persisted document is the
history written by the final `append_message` (that is the only caller of
`save_session`); `summarize_if_long` only reassigns the in-memory history
and never writes the file, so the duplicate is persisted regardless of
whether summarization fires. -/
theorem c10_complex_path_duplicate_user (llm : List Msg → PyStr)
    (execAction : PyStr → PyStr → PyStr) (llmClassify : PyStr → PyStr)
    (llmSummary : List Msg → PyStr) (maxIter : Nat) (conv : List Msg)
    (q : PyStr)
    (hcls : dispatch_classification llmClassify q ≠ toL "simple") :
    [userMsg q, userMsg q] <:+:
      (dispatch llm execAction llmClassify llmSummary maxIter conv q).2.2 := by
  simp only [dispatch]
  rw [if_neg hcls]
  rw [run_react_agent_history]
  obtain ⟨ext, hext⟩ := reactLoop_history_extends llm execAction maxIter
    ((append_message conv (toL "user") q) ++ [userMsg q]) 0
  rw [hext]
  refine ⟨conv, ext ++ [⟨toL "assistant",
    (run_react_agent llm execAction q
      (append_message conv (toL "user") q) maxIter).1⟩], ?_⟩
  simp [append_message, userMsg, List.append_assoc]

/-- Witness for C10 at a small complex query. -/
theorem c10_complex_path_duplicate_user_witness :
    [userMsg (toL "分析数据"), userMsg (toL "分析数据")] <:+:
      (dispatch (fun _ => toL "Final Answer: 好的") (fun _ _ => [])
        (fun _ => toL "x") (fun _ => toL "S") 15 c10_seed
        (toL "分析数据")).2.2 :=
  c10_complex_path_duplicate_user (fun _ => toL "Final Answer: 好的")
    (fun _ _ => []) (fun _ => toL "x") (fun _ => toL "S") 15 c10_seed
    (toL "分析数据") (by decide)

end FinAgent
